import Mathlib

/-!
Shallow embedding of the credential/token lifecycle core of the `gday` CLI
(source files `src/internal/auth/auth.go` and `src/internal/config/config.go`),
together with the small pieces of the `golang.org/x/oauth2` dependency that the
core delegates to (`Token.Valid`, the refresh-token exchange of
`Config.TokenSource`, and `Config.AuthCodeURL`).

Machine integers do not occur; all times are modelled as natural numbers of
seconds.  Filesystem and network effects are modelled by explicit environment
records: the functions below are direct transcriptions of the Go control flow,
instrumented with observable counters (number of token requests issued, the
token handed to `SaveToken`, the number of `server.Shutdown` calls) so that
the theorems can speak about the effects the Go code performs.
-/

/-- Boolean test that `pat` is a prefix of the second list, comparing
characters; used to transcribe the substring search of Go `strings.Contains`. -/
def charsPrefix : List Char → List Char → Bool
  | [], _ => true
  | _ :: _, [] => false
  | a :: as, b :: bs => a == b && charsPrefix as bs

/-- Boolean test that `pat` occurs as a contiguous sublist; the recursion
tries every suffix, like the naive reading of Go `strings.Contains`. -/
def charsContains (pat : List Char) : List Char → Bool
  | [] => charsPrefix pat []
  | a :: t => charsPrefix pat (a :: t) || charsContains pat t

/-- Transcription of Go `strings.Contains s pat`. -/
def strContains (s pat : String) : Bool :=
  charsContains pat.toList s.toList

/-- Error tag scanned for at auth.go line 258. -/
def pendingMsg : String := "authorization_pending"

/-- Error tag scanned for at auth.go line 262. -/
def slowDownMsg : String := "slow_down"

/-- Error tag scanned for at auth.go line 267. -/
def deniedMsg : String := "access_denied"

/-- Error tag scanned for at auth.go line 270. -/
def expiredMsg : String := "expired_token"

/-- Classification of a token-endpoint error string, transcribing the ordered
`strings.Contains` chain of `pollForToken` (auth.go lines 258 to 275). -/
inductive ErrClass where
  | pending
  | slowDown
  | denied
  | expired
  | other
deriving DecidableEq

/-- Ordered substring tests of `pollForToken` (auth.go lines 258 to 275):
`authorization_pending` is checked first, then `slow_down`, then
`access_denied`, then `expired_token`; anything else is an other error. -/
def classify (e : String) : ErrClass :=
  if strContains e pendingMsg then .pending
  else if strContains e slowDownMsg then .slowDown
  else if strContains e deniedMsg then .denied
  else if strContains e expiredMsg then .expired
  else .other

/-- Embedding of `oauth2.Token` (golang.org/x/oauth2).  `Expiry` is seconds
since an arbitrary epoch; `none` stands for the zero `time.Time`, which the
library treats as a token that never expires. -/
structure Token where
  AccessToken : String
  RefreshToken : String
  TokenType : String
  Expiry : Option Nat
deriving DecidableEq

/-- Embedding of `oauth2.Token.expired` (token.go of golang.org/x/oauth2): a
zero expiry never expires, otherwise the token counts as expired from
`defaultExpiryDelta = 10` seconds before the stored expiry: expired iff
`Expiry - 10s` is before `now`, i.e. `Expiry < now + 10`. -/
def Token.expired (t : Token) (now : Nat) : Bool :=
  match t.Expiry with
  | none => false
  | some e => decide (e < now + 10)

/-- Embedding of `oauth2.Token.Valid`: non-empty access token and not expired
(the `t != nil` conjunct is vacuous in this embedding). -/
def Token.Valid (t : Token) (now : Nat) : Bool :=
  t.AccessToken != "" && !(t.expired now)

/-- Filesystem failure kinds surfaced by the config store. -/
inductive FsErr where
  | notExist
  | permissionDenied
  | ioErr
deriving DecidableEq

/-- State of the two files managed by `src/internal/config/config.go`:
the credentials file and the token file, each `none` when absent, plus the
outcome `os.Remove` would report for an existing token file (`none` means the
removal succeeds). -/
structure ConfigFS where
  credFile : Option String
  tokenFile : Option String
  removeErr : Option FsErr
deriving DecidableEq

/-- Embedding of `config.ReadCredentials` (config.go lines 72 to 78):
`os.ReadFile` on the credentials path, failing with a not-exist error when
the file is absent. -/
def ReadCredentials (fs : ConfigFS) : Except FsErr String :=
  match fs.credFile with
  | none => .error .notExist
  | some s => .ok s

/-- Embedding of `config.ReadToken` (config.go lines 90 to 96). -/
def ReadToken (fs : ConfigFS) : Except FsErr String :=
  match fs.tokenFile with
  | none => .error .notExist
  | some s => .ok s

/-- Embedding of `config.DeleteToken` (config.go lines 112 to 118):
`os.Remove` on the token path; a missing file yields the not-exist error,
an existing file yields whatever the filesystem reports. -/
def DeleteToken (fs : ConfigFS) : Option FsErr :=
  match fs.tokenFile with
  | none => some .notExist
  | some _ => fs.removeErr

/-- Payload source of the error channel in `Login`: the callback handler
missing-code error (auth.go line 114) or a `ListenAndServe` failure forwarded
by the goroutine at auth.go lines 122 to 126. -/
inductive CallbackErrKind where
  | noCode
  | serveErr
deriving DecidableEq

/-- Classified failures returned by the core, one constructor per distinct
error return of auth.go. -/
inductive CoreErr where
  | notConfigured
  | badCredentials
  | notAuthenticated
  | callbackError (k : CallbackErrKind)
  | timeout
  | exchangeFailed
  | saveFailed
  | deleteFailed (e : FsErr)
deriving DecidableEq

/-- Embedding of the fields of `oauth2.Config` the core uses. -/
structure OAuthConfig where
  clientID : String
  clientSecret : String
deriving DecidableEq

/-- Body of a successful token-endpoint refresh response (the `tokenJSON` of
internal/token.go in golang.org/x/oauth2); an absent `refresh_token` field is
the empty string, as in the Go struct. -/
structure RefreshResponse where
  AccessToken : String
  RefreshToken : String
  ExpiresIn : Nat
  TokenType : String
deriving DecidableEq

/-- Embedding of the token built by `retrieveToken` in internal/token.go of
golang.org/x/oauth2 for a refresh grant: the response fields are taken as-is,
except that an empty `refresh_token` in the response is replaced by the
refresh token that was sent in the request, and the expiry is `now` plus
`expires_in` (zero `expires_in` gives a zero expiry). -/
def refreshedToken (old : Token) (r : RefreshResponse) (now : Nat) : Token :=
  { AccessToken := r.AccessToken
    RefreshToken := if r.RefreshToken = "" then old.RefreshToken else r.RefreshToken
    TokenType := r.TokenType
    Expiry := if r.ExpiresIn = 0 then none else some (now + r.ExpiresIn) }

/-- Environment of one `getToken`/`GetClient` invocation: the filesystem, the
two JSON parsers (`google.ConfigFromJSON` and `json.Unmarshal` into
`oauth2.Token`, both pure functions of the file bytes), the current time, the
response the token endpoint would give to a refresh exchange (`none` when the
exchange fails), and whether the `SaveToken` write would fail. -/
structure TokenEnv where
  fs : ConfigFS
  parseCreds : String → Option OAuthConfig
  parseToken : String → Option Token
  now : Nat
  refreshResp : Option RefreshResponse
  saveFails : Bool

/-- Composition of `config.ReadToken` and `json.Unmarshal` performed at
auth.go lines 77 to 80; both failure branches of the Go code fall through to
the same final return, so they are collapsed into `none`. -/
def readTokenParsed (env : TokenEnv) : Option Token :=
  match ReadToken env.fs with
  | .error _ => none
  | .ok s => env.parseToken s

/-- Embedding of `cfg.TokenSource(ctx, token).Token()` for an invalid cached
token (auth.go lines 86 to 87): the `tokenRefresher` of golang.org/x/oauth2
fails outright when no refresh token is stored, and otherwise performs the
refresh exchange, merging the response per `refreshedToken`. -/
def doRefresh (old : Token) (env : TokenEnv) : Option Token :=
  if old.RefreshToken = "" then none
  else
    match env.refreshResp with
    | none => none
    | some r => some (refreshedToken old r env.now)

/-- Observable outcome of `getToken` (auth.go lines 76 to 96): the returned
value, the token passed to `config.SaveToken` if any, whether a refresh was
attempted through the token source, and how many HTTP requests were issued
(the refresh exchange is the only possible one). -/
structure GetTokenResult where
  result : Except CoreErr Token
  saved : Option Token
  refreshAttempted : Bool
  networkCalls : Nat

/-- Embedding of `getToken` (auth.go lines 76 to 96).  A readable, parsable
cached token is returned unchanged when `Token.Valid` holds; otherwise a
refresh is attempted, and on success the refreshed token is handed to
`config.SaveToken` and returned.  The Go code discards the value returned by
`config.SaveToken` at line 89, so the result does not depend on
`env.saveFails`.  Every failure path returns the single not-authenticated
error of line 95. -/
def getToken (env : TokenEnv) : GetTokenResult :=
  match readTokenParsed env with
  | none => ⟨.error .notAuthenticated, none, false, 0⟩
  | some tok =>
    if tok.Valid env.now then ⟨.ok tok, none, false, 0⟩
    else
      let net := if tok.RefreshToken = "" then 0 else 1
      match doRefresh tok env with
      | some newTok => ⟨.ok newTok, some newTok, true, net⟩
      | none => ⟨.error .notAuthenticated, none, true, net⟩

/-- Embedding of `getOAuthConfig` (auth.go lines 61 to 73): read the
credentials file, then parse it with `google.ConfigFromJSON`. -/
def getOAuthConfig (fs : ConfigFS) (parseCreds : String → Option OAuthConfig) :
    Except CoreErr OAuthConfig :=
  match ReadCredentials fs with
  | .error _ => .error .notConfigured
  | .ok s =>
    match parseCreds s with
    | none => .error .badCredentials
    | some cfg => .ok cfg

/-- Observable outcome of `GetClient`: the classified result (the constructed
`http.Client` itself carries no further information for these claims) and the
number of HTTP requests issued before returning. -/
structure GetClientResult where
  client : Except CoreErr Unit
  networkCalls : Nat

/-- Embedding of `GetClient` (auth.go lines 46 to 58): load the OAuth
configuration, then obtain a token via `getToken`; `cfg.Client` performs no
request of its own. -/
def GetClient (env : TokenEnv) : GetClientResult :=
  match getOAuthConfig env.fs env.parseCreds with
  | .error e => ⟨.error e, 0⟩
  | .ok _ =>
    let r := getToken env
    match r.result with
    | .error e => ⟨.error e, r.networkCalls⟩
    | .ok _ => ⟨.ok (), r.networkCalls⟩

/-- Embedding of `Logout` (auth.go lines 337 to 343): the deletion error is
returned unless `os.IsNotExist` holds for it. -/
def Logout (fs : ConfigFS) : Except CoreErr Unit :=
  match DeleteToken fs with
  | some e => if e = .notExist then .ok () else .error (.deleteFailed e)
  | none => .ok ()

/-- The five OAuth scopes requested process-wide (auth.go lines 24 to 30). -/
def Scopes : List String :=
  ["https://www.googleapis.com/auth/gmail.readonly",
   "https://www.googleapis.com/auth/gmail.send",
   "https://www.googleapis.com/auth/gmail.modify",
   "https://www.googleapis.com/auth/calendar.readonly",
   "https://www.googleapis.com/auth/calendar.events"]

/-- Separator used by `strings.Join(Scopes, " ")`. -/
def spaceStr : String := " "

/-- The state argument `Login` passes to `AuthCodeURL` at auth.go line 130:
a fixed string literal, the same in every session. -/
def loginStateParam : String := "state-token"

/-- The redirect URL set at auth.go line 129. -/
def loginRedirectURL : String := "http://localhost:8089/callback"

/-- Query parameters of the URL built by `oauth2.Config.AuthCodeURL` (oauth2.go
of golang.org/x/oauth2) for the options `Login` passes: the base values
`response_type` and `client_id`, the redirect and scope values when non-empty,
the `state` argument when non-empty, and the two options `AccessTypeOffline`
and `ApprovalForce`. -/
def authCodeURLParams (cfg : OAuthConfig) (redirectURL : String)
    (scopes : List String) (state : String) : List (String × String) :=
  [("response_type", "code"), ("client_id", cfg.clientID)]
    ++ (if redirectURL = "" then [] else [("redirect_uri", redirectURL)])
    ++ (if scopes.isEmpty then [] else [("scope", String.intercalate spaceStr scopes)])
    ++ (if state = "" then [] else [("state", state)])
    ++ [("access_type", "offline"), ("prompt", "consent")]

/-- The authorization URL parameters `Login` builds at auth.go lines 128 to
130, as a function of the loaded OAuth configuration. -/
def loginAuthURLParams (cfg : OAuthConfig) : List (String × String) :=
  authCodeURLParams cfg loginRedirectURL Scopes loginStateParam

/-- First value bound to a query key, like Go `url.Values.Get`. -/
def findParam (ps : List (String × String)) (k : String) : Option String :=
  (ps.find? (fun p => p.1 == k)).map (fun p => p.2)

/-- A request hitting the `/callback` path: the `code` and `state` query
values, each the empty string when the parameter is absent, as with Go
`r.URL.Query().Get`. -/
structure CallbackRequest where
  code : String
  state : String
deriving DecidableEq

/-- What the callback handler does with a request (auth.go lines 111 to 120):
either send the missing-code error to the error channel and render the error
page, or send the code to the code channel and render the success page. -/
inductive CallbackAction where
  | sendErr
  | sendCode (c : String)
deriving DecidableEq

/-- Embedding of the callback handler registered at auth.go lines 111 to 120:
it reads only the `code` query parameter. -/
def callbackHandler (r : CallbackRequest) : CallbackAction :=
  if r.code = "" then .sendErr else .sendCode r.code

/-- The event that resolves the `select` of `Login` (auth.go lines 141 to
149): a code on the code channel, the handler missing-code error or a
`ListenAndServe` failure on the error channel, or the five-minute timer. -/
inductive CallbackEvent where
  | codeReceived (c : String)
  | noCodeInCallback
  | serveFailed
  | timerFired
deriving DecidableEq

/-- The timer duration of auth.go line 146, in seconds. -/
def loginTimeout : Nat := 5 * 60

/-- Environment of one `Login` invocation: the filesystem and credentials
parser, the event that wins the select, the result of `cfg.Exchange` on a
given code (`none` when the exchange fails), and whether the `SaveToken`
write fails. -/
structure LoginEnv where
  fs : ConfigFS
  parseCreds : String → Option OAuthConfig
  event : CallbackEvent
  exchange : String → Option Token
  saveFails : Bool

/-- Observable outcome of `Login`: the classified result and how many times
`server.Shutdown` was called. -/
structure LoginResult where
  result : Except CoreErr Unit
  shutdownCalls : Nat

/-- Embedding of `Login` (auth.go lines 99 to 166).  When loading the OAuth
configuration fails the function returns before the server is created, so no
shutdown happens.  Otherwise exactly one select branch fires: the error
branch and the timer branch each shut the server down once and return; the
code branch falls through to the shutdown at line 151 and then exchanges the
code and saves the token, with no further shutdown on those failure paths. -/
def Login (env : LoginEnv) : LoginResult :=
  match getOAuthConfig env.fs env.parseCreds with
  | .error e => ⟨.error e, 0⟩
  | .ok _ =>
    match env.event with
    | .noCodeInCallback => ⟨.error (.callbackError .noCode), 1⟩
    | .serveFailed => ⟨.error (.callbackError .serveErr), 1⟩
    | .timerFired => ⟨.error .timeout, 1⟩
    | .codeReceived c =>
      match env.exchange c with
      | none => ⟨.error .exchangeFailed, 1⟩
      | some _ =>
        if env.saveFails then ⟨.error .saveFailed, 1⟩ else ⟨.ok (), 1⟩

/-- The three events named by the specification for the wait of `Login`:
a received code, the callback missing-code error, and the timeout. -/
def claimedWaitEvent : CallbackEvent → Bool
  | .codeReceived _ => true
  | .noCodeInCallback => true
  | .timerFired => true
  | .serveFailed => false

/-- Boolean success test for `Except`. -/
def isOkE {α β : Type} : Except α β → Bool
  | .ok _ => true
  | .error _ => false

/-- Embedding of `DeviceAuthResponse` (auth.go lines 37 to 43); durations in
seconds. -/
structure DeviceAuthResponse where
  DeviceCode : String
  UserCode : String
  VerificationURL : String
  ExpiresIn : Nat
  Interval : Nat
deriving DecidableEq

/-- Result of one `requestToken` call (auth.go lines 283 to 334): a token, or
the error string `error ++ ": " ++ error_description` built at line 307 (other
failures are also strings). -/
inductive ReqResult where
  | ok (tok : Token)
  | err (e : String)
deriving DecidableEq

/-- Terminal outcome of `pollForToken`, one constructor per return of
auth.go lines 239 to 280. -/
inductive PollOutcome where
  | token (tok : Token)
  | userDenied
  | grantExpired
  | otherFailure (e : String)
  | timedOut
  | cancelled
deriving DecidableEq

/-- Observable outcome of the polling loop: the terminal outcome, the number
of `requestToken` calls issued, and the final value of the interval
variable. -/
structure PollResult where
  outcome : PollOutcome
  requests : Nat
  finalInterval : Nat
deriving DecidableEq

/-- Environment of one polling run: the response of the token endpoint to the
k-th `requestToken` call, and the absolute time at which the caller context is
cancelled, if ever. -/
structure PollEnv where
  resp : Nat → ReqResult
  cancelAt : Option Nat

/-- Whether the context-done channel fires before the interval timer in the
select of auth.go lines 248 to 251, for an iteration starting at `now` with
the given interval.  A tie is resolved in favour of the timer in this
deterministic model. -/
def cancelHit (c : Option Nat) (now interval : Nat) : Bool :=
  match c with
  | none => false
  | some t => decide (t < now + interval)

/-- Embedding of the loop of `pollForToken` (auth.go lines 247 to 279).  At
each iteration the deadline is checked first; then the select either observes
cancellation or sleeps the current interval and issues the next token
request, whose error string is classified by the ordered substring tests:
pending continues unchanged, slow_down adds five seconds to the interval and
continues, and the remaining classes return.  The interval argument carries a
positivity proof so that time strictly advances. -/
def pollLoop (env : PollEnv) (deadline now interval k : Nat)
    (hpos : 0 < interval) : PollResult :=
  if hlt : now < deadline then
    if cancelHit env.cancelAt now interval then ⟨.cancelled, 0, interval⟩
    else
      match env.resp k with
      | .ok tok => ⟨.token tok, 1, interval⟩
      | .err e =>
        match classify e with
        | .pending =>
          let r := pollLoop env deadline (now + interval) interval (k + 1) hpos
          ⟨r.outcome, r.requests + 1, r.finalInterval⟩
        | .slowDown =>
          let r := pollLoop env deadline (now + interval) (interval + 5) (k + 1)
            (Nat.lt_of_lt_of_le hpos (Nat.le_add_right _ _))
          ⟨r.outcome, r.requests + 1, r.finalInterval⟩
        | .denied => ⟨.userDenied, 1, interval⟩
        | .expired => ⟨.grantExpired, 1, interval⟩
        | .other => ⟨.otherFailure e, 1, interval⟩
  else ⟨.timedOut, 0, interval⟩
termination_by deadline - now
decreasing_by
  all_goals omega

/-- Embedding of `pollForToken` (auth.go lines 239 to 280): the initial
interval is the advertised interval raised to at least five seconds, and the
deadline is the start time plus the advertised `expires_in`. -/
def pollForToken (env : PollEnv) (da : DeviceAuthResponse) (now0 : Nat) :
    PollResult :=
  pollLoop env (now0 + da.ExpiresIn) now0 (max da.Interval 5) 0
    (Nat.lt_of_lt_of_le (by omega) (Nat.le_max_right da.Interval 5))

/-- Whether a token-endpoint response is the pending continuation. -/
def isPendingRes : ReqResult → Bool
  | .ok _ => false
  | .err e => decide (classify e = ErrClass.pending)

/-- Adds `m` to the request counter of a poll result; the shape every
continuing branch of `pollLoop` applies once. -/
def addReq (m : Nat) (r : PollResult) : PollResult :=
  ⟨r.outcome, r.requests + m, r.finalInterval⟩

/-- Response sequence of the device-flow test scenario of the specification:
pending, pending, slow_down, pending, then success with the given token. -/
def c3Resp (tok : Token) : Nat → ReqResult
  | 0 => .err pendingMsg
  | 1 => .err pendingMsg
  | 2 => .err slowDownMsg
  | 3 => .err pendingMsg
  | _ => .ok tok

/-- Query key of the anti-forgery parameter. -/
def stateKey : String := "state"

/-- Concrete cached token for the C1 witness: expired at time 100, carrying a
refresh token. -/
def c1Tok : Token := ⟨"old-access", "old-refresh", "Bearer", some 50⟩

/-- Concrete refresh response for the C1 witness, omitting a refresh token. -/
def c1Resp : RefreshResponse := ⟨"new-access", "", 3600, "Bearer"⟩

/-- Concrete environment for the C1 witness. -/
def c1Env : TokenEnv :=
  ⟨⟨some "creds", some "tok", none⟩, fun _ => none, fun _ => some c1Tok, 100,
    some c1Resp, false⟩

/-- Concrete cached token for the C2 counterexample: expiry 105, five seconds
after the current time 100. -/
def c2Tok : Token := ⟨"access", "refresh", "Bearer", some 105⟩

/-- Concrete environment for the C2 counterexample, at time 100 with a
failing refresh exchange. -/
def c2Env : TokenEnv :=
  ⟨⟨some "creds", some "tok", none⟩, fun _ => none, fun _ => some c2Tok, 100,
    none, false⟩

/-- Concrete valid cached token for the C2 witness: expiry 200, no refresh
token. -/
def c2vTok : Token := ⟨"access", "", "Bearer", some 200⟩

/-- Concrete environment for the C2 witness, at time 100. -/
def c2vEnv : TokenEnv :=
  ⟨⟨some "creds", some "tok", none⟩, fun _ => none, fun _ => some c2vTok, 100,
    none, false⟩

/-- Concrete boundary token for the C2 witness: expiry exactly the current
time 100. -/
def c2bTok : Token := ⟨"access", "refresh", "Bearer", some 100⟩

/-- Concrete boundary environment for the C2 witness, at time 100. -/
def c2bEnv : TokenEnv :=
  ⟨⟨some "creds", some "tok", none⟩, fun _ => none, fun _ => some c2bTok, 100,
    none, false⟩

/-- Concrete stale token for the C6 failing input. -/
def c6Tok : Token := ⟨"stale-access", "live-refresh", "Bearer", some 40⟩

/-- Concrete successful refresh response for the C6 failing input. -/
def c6Resp : RefreshResponse := ⟨"fresh-access", "fresh-refresh", 3600, "Bearer"⟩

/-- Concrete C6 failing input: expired cached token, successful refresh, and
a failing `SaveToken` write. -/
def c6Env : TokenEnv :=
  ⟨⟨some "creds", some "tok", none⟩, fun _ => none, fun _ => some c6Tok, 100,
    some c6Resp, true⟩

/-- Concrete environment for the C7 witness: no credentials file. -/
def c7Env : TokenEnv :=
  ⟨⟨none, none, none⟩, fun _ => some ⟨"id", "secret"⟩, fun _ => none, 0, none,
    false⟩

/-- Concrete environment for the C5 counterexample: configuration loads, and
the event resolving the select is a listener-serve failure. -/
def c5cEnv : LoginEnv :=
  ⟨⟨some "creds", none, none⟩, fun _ => some ⟨"id", "secret"⟩, .serveFailed,
    fun _ => none, false⟩

/-- Concrete environment for the C5 witness: configuration loads, and the
five-minute timer fires. -/
def c5wEnv : LoginEnv :=
  ⟨⟨some "creds", none, none⟩, fun _ => some ⟨"id", "secret"⟩, .timerFired,
    fun _ => none, false⟩

/-- Concrete OAuth configuration for the C9 theorems. -/
def c9Cfg : OAuthConfig := ⟨"client-id", "client-secret"⟩

/-- Concrete callback request for the C9 witness. -/
def c9ReqA : CallbackRequest := ⟨"auth-code", "whatever"⟩

/-- Concrete callback request for the C9 witness, same code and a different
state value. -/
def c9ReqB : CallbackRequest := ⟨"auth-code", "something-else"⟩

/-- Concrete polling environment for the C4 witness: two pending responses,
then access denied. -/
def c4Env : PollEnv :=
  ⟨fun k => if k < 2 then .err pendingMsg else .err deniedMsg, none⟩

/-- Concrete device grant for the C4 witness. -/
def c4Da : DeviceAuthResponse := ⟨"dc", "uc", "vu", 100, 3⟩

/-- Concrete polling environment for the C8 witness: every response
pending, no cancellation. -/
def c8pEnv : PollEnv := ⟨fun _ => .err pendingMsg, none⟩

/-- Concrete polling environment for the C8 witness: context cancelled at
time 100. -/
def c8cEnv : PollEnv := ⟨fun _ => .err pendingMsg, some 100⟩

/-- Concrete device grant for the C8 witness. -/
def c8Da : DeviceAuthResponse := ⟨"dc", "uc", "vu", 17, 3⟩

/-- Concrete filesystem for the C10 witness: no token file. -/
def c10FsA : ConfigFS := ⟨none, none, none⟩

/-- Concrete filesystem for the C10 witness: token file present but the
removal fails with an input-output error. -/
def c10FsB : ConfigFS := ⟨none, some "tok", some .ioErr⟩

theorem cancelHit_none (now interval : Nat) : cancelHit none now interval = false := rfl

theorem pollLoop_step_timeout (env : PollEnv) (d now i k : Nat) (h : 0 < i)
    (hge : ¬ now < d) : pollLoop env d now i k h = ⟨.timedOut, 0, i⟩ := by
  rw [pollLoop]
  simp [hge]

theorem pollLoop_step_cancel (env : PollEnv) (d now i k : Nat) (h : 0 < i)
    (hlt : now < d) (hc : cancelHit env.cancelAt now i = true) :
    pollLoop env d now i k h = ⟨.cancelled, 0, i⟩ := by
  rw [pollLoop]
  simp [hlt, hc]

theorem pollLoop_step_ok (env : PollEnv) (d now i k : Nat) (h : 0 < i)
    (tok : Token) (hlt : now < d) (hc : cancelHit env.cancelAt now i = false)
    (hr : env.resp k = .ok tok) :
    pollLoop env d now i k h = ⟨.token tok, 1, i⟩ := by
  rw [pollLoop]
  simp [hlt, hc, hr]

theorem pollLoop_step_pending (env : PollEnv) (d now i k : Nat) (h : 0 < i)
    (e' : String) (hlt : now < d) (hc : cancelHit env.cancelAt now i = false)
    (hr : env.resp k = .err e') (hcl : classify e' = .pending) :
    pollLoop env d now i k h = addReq 1 (pollLoop env d (now + i) i (k + 1) h) := by
  rw [pollLoop]
  simp [hlt, hc, hr, hcl, addReq]

theorem pollLoop_step_slow (env : PollEnv) (d now i k : Nat) (h : 0 < i)
    (h5 : 0 < i + 5) (e' : String) (hlt : now < d)
    (hc : cancelHit env.cancelAt now i = false)
    (hr : env.resp k = .err e') (hcl : classify e' = .slowDown) :
    pollLoop env d now i k h =
      addReq 1 (pollLoop env d (now + i) (i + 5) (k + 1) h5) := by
  rw [pollLoop]
  simp [hlt, hc, hr, hcl, addReq]

theorem pollLoop_step_denied (env : PollEnv) (d now i k : Nat) (h : 0 < i)
    (e' : String) (hlt : now < d) (hc : cancelHit env.cancelAt now i = false)
    (hr : env.resp k = .err e') (hcl : classify e' = .denied) :
    pollLoop env d now i k h = ⟨.userDenied, 1, i⟩ := by
  rw [pollLoop]
  simp [hlt, hc, hr, hcl]

theorem pollLoop_step_expired (env : PollEnv) (d now i k : Nat) (h : 0 < i)
    (e' : String) (hlt : now < d) (hc : cancelHit env.cancelAt now i = false)
    (hr : env.resp k = .err e') (hcl : classify e' = .expired) :
    pollLoop env d now i k h = ⟨.grantExpired, 1, i⟩ := by
  rw [pollLoop]
  simp [hlt, hc, hr, hcl]

theorem pollLoop_step_other (env : PollEnv) (d now i k : Nat) (h : 0 < i)
    (e' : String) (hlt : now < d) (hc : cancelHit env.cancelAt now i = false)
    (hr : env.resp k = .err e') (hcl : classify e' = .other) :
    pollLoop env d now i k h = ⟨.otherFailure e', 1, i⟩ := by
  rw [pollLoop]
  simp [hlt, hc, hr, hcl]

theorem isPendingRes_err {e : String} (h : isPendingRes (ReqResult.err e) = true) :
    classify e = .pending := by
  simpa [isPendingRes] using h

theorem pollLoop_pending_run (env : PollEnv) (d i : Nat) (h : 0 < i)
    (hcan : env.cancelAt = none) :
    ∀ (m now k : Nat), (∀ j, j < m → isPendingRes (env.resp (k + j)) = true) →
      (∀ j, j < m → now + j * i < d) →
      pollLoop env d now i k h = addReq m (pollLoop env d (now + m * i) i (k + m) h) := by
  intro m
  induction m with
  | zero =>
    intro now k _ _
    simp [addReq]
  | succ n ih =>
    intro now k hp hd
    have hlt : now < d := by
      have := hd 0 (Nat.succ_pos n)
      omega
    have hc : cancelHit env.cancelAt now i = false := by
      rw [hcan]
      exact cancelHit_none now i
    have hp0 : isPendingRes (env.resp k) = true := by
      have := hp 0 (Nat.succ_pos n)
      simpa using this
    cases hr : env.resp k with
    | ok tok => rw [hr] at hp0; simp [isPendingRes] at hp0
    | err e' =>
      have hcl : classify e' = .pending := by
        rw [hr] at hp0
        exact isPendingRes_err hp0
      rw [pollLoop_step_pending env d now i k h e' hlt hc hr hcl]
      have hrec := ih (now + i) (k + 1)
        (by
          intro j hj
          have := hp (j + 1) (by omega)
          have hx : k + 1 + j = k + (j + 1) := by omega
          rw [hx]
          exact this)
        (by
          intro j hj
          have := hd (j + 1) (by omega)
          have hx : now + i + j * i = now + (j + 1) * i := by ring
          rw [hx]
          exact this)
      rw [hrec]
      have h1 : now + i + n * i = now + (n + 1) * i := by ring
      have h2 : k + 1 + n = k + (n + 1) := by omega
      rw [h1, h2]
      simp [addReq]
      omega

theorem pollLoop_requests_le (env : PollEnv) :
    ∀ (fuel d now i k : Nat) (h : 0 < i), 5 ≤ i → d - now ≤ fuel →
      5 * (pollLoop env d now i k h).requests ≤ (d - now) + 4 := by
  intro fuel
  induction fuel with
  | zero =>
    intro d now i k h h5 hf
    rw [pollLoop_step_timeout env d now i k h (by omega)]
    simp
  | succ n ih =>
    intro d now i k h h5 hf
    by_cases hlt : now < d
    · cases hc : cancelHit env.cancelAt now i with
      | true =>
        rw [pollLoop_step_cancel env d now i k h hlt hc]
        simp
      | false =>
        cases hr : env.resp k with
        | ok tok =>
          rw [pollLoop_step_ok env d now i k h tok hlt hc hr]
          simp
          omega
        | err e' =>
          cases hcl : classify e' with
          | pending =>
            rw [pollLoop_step_pending env d now i k h e' hlt hc hr hcl]
            have := ih d (now + i) i (k + 1) h h5 (by omega)
            simp [addReq]
            omega
          | slowDown =>
            rw [pollLoop_step_slow env d now i k h (by omega) e' hlt hc hr hcl]
            have := ih d (now + i) (i + 5) (k + 1) (by omega) (by omega) (by omega)
            simp [addReq]
            omega
          | denied =>
            rw [pollLoop_step_denied env d now i k h e' hlt hc hr hcl]
            simp
            omega
          | expired =>
            rw [pollLoop_step_expired env d now i k h e' hlt hc hr hcl]
            simp
            omega
          | other =>
            rw [pollLoop_step_other env d now i k h e' hlt hc hr hcl]
            simp
            omega
    · rw [pollLoop_step_timeout env d now i k h hlt]
      simp

theorem pollLoop_all_pending (env : PollEnv) (hcan : env.cancelAt = none)
    (hp : ∀ j, isPendingRes (env.resp j) = true) :
    ∀ (fuel d now i k : Nat) (h : 0 < i), d - now ≤ fuel →
      (pollLoop env d now i k h).outcome = .timedOut := by
  intro fuel
  induction fuel with
  | zero =>
    intro d now i k h hf
    rw [pollLoop_step_timeout env d now i k h (by omega)]
  | succ n ih =>
    intro d now i k h hf
    by_cases hlt : now < d
    · have hc : cancelHit env.cancelAt now i = false := by
        rw [hcan]
        exact cancelHit_none now i
      cases hr : env.resp k with
      | ok tok =>
        have := hp k
        rw [hr] at this
        simp [isPendingRes] at this
      | err e' =>
        have hcl : classify e' = .pending := by
          have := hp k
          rw [hr] at this
          exact isPendingRes_err this
        rw [pollLoop_step_pending env d now i k h e' hlt hc hr hcl]
        simp only [addReq]
        exact ih d (now + i) i (k + 1) h (by omega)
    · rw [pollLoop_step_timeout env d now i k h hlt]

/-- C1: for every cached token that contains a refresh token, when the
refresh exchange succeeds but its response omits a new refresh token, the
token `getToken` hands to `config.SaveToken` is the merged token, whose
refresh token equals the original one; the stored refresh token is never
overwritten with an empty one. -/
theorem c1_refresh_token_retained (env : TokenEnv) (tok : Token)
    (r : RefreshResponse) (hread : readTokenParsed env = some tok)
    (hrt : tok.RefreshToken ≠ "") (hvalid : tok.Valid env.now = false)
    (hresp : env.refreshResp = some r) (hempty : r.RefreshToken = "") :
    (getToken env).saved = some (refreshedToken tok r env.now) ∧
      (refreshedToken tok r env.now).RefreshToken = tok.RefreshToken := by
  constructor
  · simp [getToken, hread, hvalid, doRefresh, hrt, hresp]
  · simp [refreshedToken, hempty]

/-- Closed witness for C1 at the concrete environment `c1Env`. -/
theorem c1_refresh_token_retained_witness :
    (getToken c1Env).saved = some (refreshedToken c1Tok c1Resp 100) ∧
      (refreshedToken c1Tok c1Resp 100).RefreshToken = c1Tok.RefreshToken :=
  c1_refresh_token_retained c1Env c1Tok c1Resp rfl (by decide) (by decide) rfl rfl

/-- C2 counterexample: a readable, parsable cached token whose expiry (105)
is strictly in the future of the current time (100) is nevertheless not
returned unchanged, because the oauth2 validity test applies a ten-second
early-expiry margin and a refresh is attempted instead. -/
theorem c2_counterexample :
    readTokenParsed c2Env = some c2Tok ∧ c2Env.now = 100 ∧
      c2Tok.Expiry = some 105 ∧ 100 < 105 ∧
      ¬((getToken c2Env).result = Except.ok c2Tok ∧
        (getToken c2Env).refreshAttempted = false) := by
  refine ⟨rfl, rfl, rfl, by omega, fun hcl => ?_⟩
  have hT : (getToken c2Env).refreshAttempted = true := rfl
  rw [hcl.2] at hT
  exact Bool.noConfusion hT

/-- C2 amended: `getToken` returns a readable, parsable cached token
unchanged, without attempting a refresh, exactly when the oauth2 validity
test accepts it: non-empty access token and expiry either the zero time or
at least ten seconds after the current time (the library early-expiry
margin).  In particular a token whose expiry equals the current time is
invalid and a refresh is attempted. -/
theorem c2_expiry_boundary :
    (∀ (t : Token) (n : Nat), t.Valid n = true ↔
        (t.AccessToken ≠ "" ∧
          (t.Expiry = none ∨ ∃ ex, t.Expiry = some ex ∧ n + 10 ≤ ex)))
  ∧ (∀ (env : TokenEnv) (tok : Token), readTokenParsed env = some tok →
        (((getToken env).result = Except.ok tok ∧
            (getToken env).refreshAttempted = false)
          ↔ tok.Valid env.now = true))
  ∧ (∀ (env : TokenEnv) (tok : Token), readTokenParsed env = some tok →
        tok.Expiry = some env.now →
        tok.Valid env.now = false ∧ (getToken env).refreshAttempted = true) := by
  refine ⟨?_, ?_, ?_⟩
  · intro t n
    cases hE : t.Expiry with
    | none =>
      simp [Token.Valid, Token.expired, hE, Bool.and_eq_true, bne_iff_ne]
    | some ex =>
      simp [Token.Valid, Token.expired, hE, Bool.and_eq_true, bne_iff_ne,
        Nat.not_lt]
  · intro env tok h
    cases hv : tok.Valid env.now with
    | true => simp [getToken, h, hv]
    | false =>
      simp only [getToken, h, hv]
      cases hd : doRefresh tok env with
      | none => simp [hd, hv]
      | some nt => simp [hd, hv]
  · intro env tok h hExp
    have hd10 : decide (env.now < env.now + 10) = true := decide_eq_true (by omega)
    have hv : tok.Valid env.now = false := by
      simp [Token.Valid, Token.expired, hExp, hd10]
    refine ⟨hv, ?_⟩
    simp only [getToken, h, hv]
    cases hd : doRefresh tok env with
    | none => simp [hd]
    | some nt => simp [hd]

/-- Closed witness for C2: a valid concrete token is returned unchanged with
no refresh attempt, and a concrete token expiring exactly now is invalid and
triggers a refresh attempt. -/
theorem c2_expiry_boundary_witness :
    ((getToken c2vEnv).result = Except.ok c2vTok ∧
        (getToken c2vEnv).refreshAttempted = false)
      ∧ (c2bTok.Valid 100 = false ∧ (getToken c2bEnv).refreshAttempted = true) := by
  refine ⟨(c2_expiry_boundary.2.1 c2vEnv c2vTok rfl).mpr (by decide), ?_⟩
  exact c2_expiry_boundary.2.2 c2bEnv c2bTok rfl rfl

/-- C6: the Go code at auth.go line 89 discards the value returned by
`config.SaveToken`, so the outcome of `getToken` is entirely independent of
whether the save succeeds; at the concrete failing input `c6Env` the save
fails, yet `getToken` still reports success with the refreshed token instead
of surfacing a persistence failure. -/
theorem c6_save_error_swallowed :
    (∀ (env : TokenEnv) (b : Bool),
        getToken { env with saveFails := b } = getToken env)
  ∧ c6Env.saveFails = true
  ∧ (getToken c6Env).result = Except.ok (refreshedToken c6Tok c6Resp 100)
  ∧ (getToken c6Env).saved = some (refreshedToken c6Tok c6Resp 100) :=
  ⟨fun _ _ => rfl, rfl, rfl, rfl⟩

/-- C7: with no credentials file present, `GetClient` fails with the
not-configured error, that error originates in `config.ReadCredentials`,
and no HTTP request is issued. -/
theorem c7_not_configured (env : TokenEnv) (h : env.fs.credFile = none) :
    GetClient env = ⟨Except.error CoreErr.notConfigured, 0⟩ ∧
      ReadCredentials env.fs = Except.error FsErr.notExist := by
  constructor
  · simp [GetClient, getOAuthConfig, ReadCredentials, h]
  · simp [ReadCredentials, h]

/-- Closed witness for C7 at the concrete environment `c7Env`. -/
theorem c7_not_configured_witness :
    GetClient c7Env = ⟨Except.error CoreErr.notConfigured, 0⟩ ∧
      ReadCredentials c7Env.fs = Except.error FsErr.notExist :=
  c7_not_configured c7Env rfl

/-- C10: deleting a missing token file yields the not-exist error and
`Logout` still succeeds, so `Logout` is idempotent at the public interface;
a successful deletion also succeeds; any other deletion failure is returned
as an error. -/
theorem c10_logout_idempotent :
    (∀ fs : ConfigFS, fs.tokenFile = none →
        DeleteToken fs = some FsErr.notExist ∧ Logout fs = Except.ok ())
  ∧ (∀ fs : ConfigFS, DeleteToken fs = none → Logout fs = Except.ok ())
  ∧ (∀ (fs : ConfigFS) (e : FsErr), DeleteToken fs = some e →
        e ≠ FsErr.notExist → Logout fs = Except.error (CoreErr.deleteFailed e)) := by
  refine ⟨fun fs h => ⟨?_, ?_⟩, fun fs h => ?_, fun fs e h hne => ?_⟩
  · simp [DeleteToken, h]
  · simp [Logout, DeleteToken, h]
  · simp [Logout, h]
  · simp [Logout, h, hne]

/-- Closed witness for C10 at the concrete filesystems `c10FsA` and
`c10FsB`. -/
theorem c10_logout_idempotent_witness :
    (DeleteToken c10FsA = some FsErr.notExist ∧ Logout c10FsA = Except.ok ()) ∧
      Logout c10FsB = Except.error (CoreErr.deleteFailed FsErr.ioErr) := by
  refine ⟨c10_logout_idempotent.1 c10FsA rfl, ?_⟩
  exact c10_logout_idempotent.2.2 c10FsB FsErr.ioErr rfl (by decide)

theorem c3_sequence_run (tok : Token) (d n0 i : Nat) (hh : 0 < i)
    (h5 : 0 < i + 5) (t1 : n0 < d) (t2 : n0 + i < d) (t3 : n0 + i + i < d)
    (t4 : n0 + i + i + i < d) (t5 : n0 + i + i + i + (i + 5) < d) :
    pollLoop ⟨c3Resp tok, none⟩ d n0 i 0 hh = ⟨.token tok, 5, i + 5⟩ := by
  calc pollLoop ⟨c3Resp tok, none⟩ d n0 i 0 hh
      = addReq 1 (pollLoop ⟨c3Resp tok, none⟩ d (n0 + i) i 1 hh) :=
        pollLoop_step_pending ⟨c3Resp tok, none⟩ d n0 i 0 hh pendingMsg t1 rfl
          rfl (by decide)
    _ = addReq 1 (addReq 1 (pollLoop ⟨c3Resp tok, none⟩ d (n0 + i + i) i 2 hh)) :=
        congrArg (addReq 1)
          (pollLoop_step_pending ⟨c3Resp tok, none⟩ d (n0 + i) i 1 hh pendingMsg
            t2 rfl rfl (by decide))
    _ = addReq 1 (addReq 1 (addReq 1
          (pollLoop ⟨c3Resp tok, none⟩ d (n0 + i + i + i) (i + 5) 3 h5))) :=
        congrArg (addReq 1) (congrArg (addReq 1)
          (pollLoop_step_slow ⟨c3Resp tok, none⟩ d (n0 + i + i) i 2 hh h5
            slowDownMsg t3 rfl rfl (by decide)))
    _ = addReq 1 (addReq 1 (addReq 1 (addReq 1
          (pollLoop ⟨c3Resp tok, none⟩ d (n0 + i + i + i + (i + 5)) (i + 5) 4 h5)))) :=
        congrArg (addReq 1) (congrArg (addReq 1) (congrArg (addReq 1)
          (pollLoop_step_pending ⟨c3Resp tok, none⟩ d (n0 + i + i + i) (i + 5) 3
            h5 pendingMsg t4 rfl rfl (by decide))))
    _ = addReq 1 (addReq 1 (addReq 1 (addReq 1
          (⟨.token tok, 1, i + 5⟩ : PollResult)))) :=
        congrArg (addReq 1) (congrArg (addReq 1) (congrArg (addReq 1)
          (congrArg (addReq 1)
            (pollLoop_step_ok ⟨c3Resp tok, none⟩ d (n0 + i + i + i + (i + 5))
              (i + 5) 4 h5 tok t5 rfl rfl))))
    _ = ⟨.token tok, 5, i + 5⟩ := rfl

/-- C3: the first poll uses the interval `max(advertised, 5)` seconds,
observed through the final interval when the first request succeeds; a
slow_down response increases the interval by exactly five seconds before the
next request; and the response sequence pending, pending, slow_down, pending,
success yields exactly one interval increase (the final interval is the
initial one plus five), five requests, and the token. -/
theorem c3_interval_behaviour :
    (∀ (env : PollEnv) (da : DeviceAuthResponse) (n0 : Nat) (tok : Token),
        env.cancelAt = none → 0 < da.ExpiresIn → env.resp 0 = .ok tok →
        pollForToken env da n0 = ⟨.token tok, 1, max da.Interval 5⟩)
  ∧ (∀ (env : PollEnv) (d now i k : Nat) (h : 0 < i) (h5 : 0 < i + 5)
        (e' : String) (tok : Token),
        env.cancelAt = none → now < d → now + i < d →
        env.resp k = .err e' → classify e' = .slowDown →
        env.resp (k + 1) = .ok tok →
        pollLoop env d now i k h = ⟨.token tok, 2, i + 5⟩)
  ∧ (∀ (s ex n0 : Nat) (tok : Token), 4 * max s 5 + 5 < ex →
        pollForToken ⟨c3Resp tok, none⟩ ⟨"dc", "uc", "vu", ex, s⟩ n0 =
          ⟨.token tok, 5, max s 5 + 5⟩) := by
  refine ⟨?_, ?_, ?_⟩
  · intro env da n0 tok hcan he hr
    rw [pollForToken]
    have hc : cancelHit env.cancelAt n0 (max da.Interval 5) = false := by
      rw [hcan]
      exact cancelHit_none _ _
    exact pollLoop_step_ok env _ n0 _ 0 _ tok (by omega) hc hr
  · intro env d now i k h h5 e' tok hcan hlt hlt2 hr hcl hr2
    have hc1 : cancelHit env.cancelAt now i = false := by
      rw [hcan]
      exact cancelHit_none _ _
    have hc2 : cancelHit env.cancelAt (now + i) (i + 5) = false := by
      rw [hcan]
      exact cancelHit_none _ _
    rw [pollLoop_step_slow env d now i k h h5 e' hlt hc1 hr hcl]
    rw [pollLoop_step_ok env d (now + i) (i + 5) (k + 1) h5 tok hlt2 hc2 hr2]
    rfl
  · intro s ex n0 tok hroom
    have hi5 : 5 ≤ max s 5 := Nat.le_max_right s 5
    exact c3_sequence_run tok (n0 + ex) n0 (max s 5) (by omega) (by omega)
      (by omega) (by omega) (by omega) (by omega) (by omega)

/-- Closed witness for C3: the five-response scenario at a concrete token and
grant ends with the token, five requests, and a final interval of ten. -/
theorem c3_interval_behaviour_witness :
    pollForToken ⟨c3Resp ⟨"a", "r", "B", some 999⟩, none⟩
        ⟨"dc", "uc", "vu", 60, 3⟩ 0 =
      ⟨.token ⟨"a", "r", "B", some 999⟩, 5, 10⟩ :=
  c3_interval_behaviour.2.2 3 60 0 ⟨"a", "r", "B", some 999⟩ (by decide)

/-- C4: after any number of pending responses, an access_denied response
terminates the poll immediately with the user-denied outcome and no further
token requests (the request count is exactly the index of the terminal
response plus one); an expired_token response terminates with the
grant-expired outcome; and any other error response terminates with that
error, with no retry. -/
theorem c4_terminal_errors :
    ∀ (env : PollEnv) (da : DeviceAuthResponse) (n0 k : Nat) (e' : String),
      env.cancelAt = none →
      (∀ j, j < k → isPendingRes (env.resp j) = true) →
      k * max da.Interval 5 < da.ExpiresIn →
      env.resp k = .err e' →
      ((classify e' = .denied →
          pollForToken env da n0 = ⟨.userDenied, k + 1, max da.Interval 5⟩)
      ∧ (classify e' = .expired →
          pollForToken env da n0 = ⟨.grantExpired, k + 1, max da.Interval 5⟩)
      ∧ (classify e' = .other →
          pollForToken env da n0 = ⟨.otherFailure e', k + 1, max da.Interval 5⟩)) := by
  intro env da n0 k e' hcan hp hroom hr
  have hi5 : 5 ≤ max da.Interval 5 := Nat.le_max_right _ _
  have hpos : 0 < max da.Interval 5 := by omega
  have hrun := pollLoop_pending_run env (n0 + da.ExpiresIn) (max da.Interval 5)
    hpos hcan k n0 0
    (by
      intro j hj
      have := hp j hj
      simpa using this)
    (by
      intro j hj
      have hj' : j * max da.Interval 5 ≤ k * max da.Interval 5 :=
        Nat.mul_le_mul_right _ (by omega)
      omega)
  have hltk : n0 + k * max da.Interval 5 < n0 + da.ExpiresIn := by omega
  have hc : cancelHit env.cancelAt (n0 + k * max da.Interval 5)
      (max da.Interval 5) = false := by
    rw [hcan]
    exact cancelHit_none _ _
  have hr' : env.resp (0 + k) = .err e' := by
    have hx : 0 + k = k := by omega
    rw [hx]
    exact hr
  refine ⟨fun hcl => ?_, fun hcl => ?_, fun hcl => ?_⟩
  · rw [pollForToken, hrun,
      pollLoop_step_denied env (n0 + da.ExpiresIn)
        (n0 + k * max da.Interval 5) (max da.Interval 5) (0 + k) hpos e' hltk
        hc hr' hcl]
    simp [addReq, Nat.add_comm]
  · rw [pollForToken, hrun,
      pollLoop_step_expired env (n0 + da.ExpiresIn)
        (n0 + k * max da.Interval 5) (max da.Interval 5) (0 + k) hpos e' hltk
        hc hr' hcl]
    simp [addReq, Nat.add_comm]
  · rw [pollForToken, hrun,
      pollLoop_step_other env (n0 + da.ExpiresIn)
        (n0 + k * max da.Interval 5) (max da.Interval 5) (0 + k) hpos e' hltk
        hc hr' hcl]
    simp [addReq, Nat.add_comm]

/-- Closed witness for C4: two pending responses followed by access_denied
end with the user-denied outcome after exactly three requests. -/
theorem c4_terminal_errors_witness :
    pollForToken c4Env c4Da 7 = ⟨.userDenied, 3, 5⟩ := by
  have h := c4_terminal_errors c4Env c4Da 7 2 deniedMsg rfl
    (by
      intro j hj
      interval_cases j <;> rfl)
    (by decide) rfl
  exact h.1 (by decide)

/-- C8: polling always terminates, with the number of token requests bounded
by the advertised expiry (five seconds times the request count never exceeds
`expires_in + 4`, since iterations only start strictly before the deadline
`now + expires_in`); if nothing but pending responses arrive the outcome is
the timeout failure; and a context cancelled before the current sleep
completes aborts the loop immediately with the cancellation outcome and no
further token request. -/
theorem c8_poll_termination :
    (∀ (env : PollEnv) (da : DeviceAuthResponse) (n0 : Nat),
        5 * (pollForToken env da n0).requests ≤ da.ExpiresIn + 4)
  ∧ (∀ (env : PollEnv) (da : DeviceAuthResponse) (n0 : Nat),
        env.cancelAt = none → (∀ j, isPendingRes (env.resp j) = true) →
        (pollForToken env da n0).outcome = .timedOut)
  ∧ (∀ (env : PollEnv) (d now i k : Nat) (h : 0 < i) (t : Nat),
        env.cancelAt = some t → now < d → t < now + i →
        pollLoop env d now i k h = ⟨.cancelled, 0, i⟩) := by
  refine ⟨?_, ?_, ?_⟩
  · intro env da n0
    rw [pollForToken]
    have h := pollLoop_requests_le env da.ExpiresIn (n0 + da.ExpiresIn) n0
      (max da.Interval 5) 0
      (Nat.lt_of_lt_of_le (by omega) (Nat.le_max_right _ _))
      (Nat.le_max_right _ _) (by omega)
    have hsub : n0 + da.ExpiresIn - n0 = da.ExpiresIn := by omega
    rw [hsub] at h
    exact h
  · intro env da n0 hcan hp
    rw [pollForToken]
    exact pollLoop_all_pending env hcan hp da.ExpiresIn (n0 + da.ExpiresIn) n0
      (max da.Interval 5) 0
      (Nat.lt_of_lt_of_le (by omega) (Nat.le_max_right _ _)) (by omega)
  · intro env d now i k h t hcan hlt ht
    refine pollLoop_step_cancel env d now i k h hlt ?_
    rw [hcan]
    simp [cancelHit]
    omega

/-- Closed witness for C8 at concrete polling environments: the request
bound, the all-pending timeout, and immediate cancellation. -/
theorem c8_poll_termination_witness :
    5 * (pollForToken c8pEnv c8Da 100).requests ≤ 21 ∧
      (pollForToken c8pEnv c8Da 100).outcome = .timedOut ∧
      pollLoop c8cEnv 200 100 5 0 (by omega) = ⟨.cancelled, 0, 5⟩ := by
  refine ⟨?_, ?_, ?_⟩
  · exact c8_poll_termination.1 c8pEnv c8Da 100
  · exact c8_poll_termination.2.1 c8pEnv c8Da 100 rfl (fun j => rfl)
  · exact c8_poll_termination.2.2 c8cEnv 200 100 5 0 (by omega) 100 rfl
      (by omega) (by omega)

/-- C5 counterexample: when the listener fails to serve (for instance the
fixed port is already bound), the wait of `Login` resolves — the listener is
shut down and an error is returned — through an event that is none of the
three named by the claim: the result is the wrapped serve error, not the
missing-code callback error, not the timeout, and no code was received. -/
theorem c5_counterexample :
    claimedWaitEvent c5cEnv.event = false ∧
      (Login c5cEnv).shutdownCalls = 1 ∧
      (Login c5cEnv).result =
        Except.error (CoreErr.callbackError CallbackErrKind.serveErr) :=
  ⟨rfl, rfl, rfl⟩

/-- C5 amended: whenever `Login` reaches the wait (the OAuth configuration
loads), exactly one select branch resolves it — the received code, an error
on the error channel (missing-code callback error or listener-serve
failure), or the timer — the listener is shut down exactly once on every
such exit path, the timer duration is five minutes, and when configuration
loading fails the listener was never started, hence zero shutdowns. -/
theorem c5_single_shutdown (env : LoginEnv) :
    (isOkE (getOAuthConfig env.fs env.parseCreds) = false →
        (Login env).shutdownCalls = 0)
  ∧ (isOkE (getOAuthConfig env.fs env.parseCreds) = true →
        (Login env).shutdownCalls = 1
      ∧ (env.event = .timerFired →
            (Login env).result = Except.error CoreErr.timeout)
      ∧ (env.event = .noCodeInCallback →
            (Login env).result =
              Except.error (CoreErr.callbackError CallbackErrKind.noCode))
      ∧ (env.event = .serveFailed →
            (Login env).result =
              Except.error (CoreErr.callbackError CallbackErrKind.serveErr))
      ∧ (∀ c tok, env.event = .codeReceived c → env.exchange c = some tok →
            env.saveFails = false → (Login env).result = Except.ok ()))
  ∧ loginTimeout = 300 := by
  refine ⟨?_, ?_, rfl⟩
  · intro hbad
    cases hcfg : getOAuthConfig env.fs env.parseCreds with
    | error e => simp [Login, hcfg]
    | ok cfg =>
      rw [hcfg] at hbad
      simp [isOkE] at hbad
  · intro hok
    cases hcfg : getOAuthConfig env.fs env.parseCreds with
    | error e =>
      rw [hcfg] at hok
      simp [isOkE] at hok
    | ok cfg =>
      refine ⟨?_, ?_, ?_, ?_, ?_⟩
      · cases hev : env.event with
        | codeReceived c =>
          simp only [Login, hcfg, hev]
          cases hx : env.exchange c with
          | none => simp
          | some tok =>
            cases hs : env.saveFails <;> simp [hs]
        | noCodeInCallback => simp [Login, hcfg, hev]
        | serveFailed => simp [Login, hcfg, hev]
        | timerFired => simp [Login, hcfg, hev]
      · intro hev
        simp [Login, hcfg, hev]
      · intro hev
        simp [Login, hcfg, hev]
      · intro hev
        simp [Login, hcfg, hev]
      · intro c tok hev hx hs
        simp [Login, hcfg, hev, hx, hs]

/-- Closed witness for C5 at the concrete environment `c5wEnv`, where the
timer fires. -/
theorem c5_single_shutdown_witness :
    (Login c5wEnv).shutdownCalls = 1 ∧
      (Login c5wEnv).result = Except.error CoreErr.timeout := by
  have h := (c5_single_shutdown c5wEnv).2.1 rfl
  exact ⟨h.1, h.2.1 rfl⟩

/-- C9 counterexample: the authorization URL does not omit a state
parameter; for a concrete configuration the parameter is present, bound to
the fixed value of `loginStateParam`. -/
theorem c9_counterexample :
    findParam (loginAuthURLParams c9Cfg) stateKey = some loginStateParam ∧
      loginStateParam = "state-token" :=
  ⟨rfl, rfl⟩

/-- C9 amended: the authorization URL contains a state parameter, but its
value is the fixed literal of `loginStateParam` for every configuration —
no per-session anti-forgery value is included — and the callback handler
reads only the code parameter, performing no state verification. -/
theorem c9_no_session_state :
    (∀ cfg : OAuthConfig,
        findParam (loginAuthURLParams cfg) stateKey = some loginStateParam)
  ∧ (∀ r r' : CallbackRequest, r.code = r'.code →
        callbackHandler r = callbackHandler r') := by
  constructor
  · intro cfg
    rfl
  · intro r r' h
    simp [callbackHandler, h]

/-- Closed witness for C9: the state parameter of a concrete configuration,
and two callback requests with equal codes and different states handled
identically. -/
theorem c9_no_session_state_witness :
    findParam (loginAuthURLParams c9Cfg) stateKey = some loginStateParam ∧
      callbackHandler c9ReqA = callbackHandler c9ReqB :=
  ⟨c9_no_session_state.1 c9Cfg, c9_no_session_state.2 c9ReqA c9ReqB rfl⟩
